import Mathlib

/-!
Shallow embedding of `snaptron_mcp_server.py` (Snaptron MCP server).

The embedding models the Python values that flow through the query layer
(`build_url`, `extract_params`), the transport client (`fetch`, with the
network abstracted as an oracle from URL to response), the response
summarizer (the record-count expression inside `call_tool`), and the
`call_tool` dispatcher including its exception-to-text boundary.
Python exceptions are modeled with `Except`; the dispatcher additionally
records the list of URLs it fetched, so that fetch-count properties
(retry-freedom, build-only makes no network call) are statable.
-/

/-- A Python value as it appears in tool arguments / query parameters:
a string, an integer, a list of strings (the `rfilter`/`sfilter` arrays),
or `None`. -/
inductive PyVal where
  | str : String → PyVal
  | int : Int → PyVal
  | list : List String → PyVal
  | none : PyVal
deriving DecidableEq, Repr

/-- Python `str(value)` for the values above, as used in f-strings.
(`str` of a list is its Python repr with quoted elements; the scalar
branch of `build_url` never reaches it because lists are handled first.) -/
def pyValStr : PyVal → String
  | .str s => s
  | .int n => toString n
  | .list xs => "[" ++ String.intercalate ", " (xs.map (fun s => "\x27" ++ s ++ "\x27")) ++ "]"
  | .none => "None"

/-- Python truthiness for the values above (`if args[\x22rfilter\x22]:`). -/
def pyTruthy : PyVal → Bool
  | .str s => s != ""
  | .int n => n != 0
  | .list xs => xs != []
  | .none => false

/-- `BASE_URL = "http://snaptron.cs.jhu.edu"` (line 28). -/
def BASE_URL : String := "http://snaptron.cs.jhu.edu"

/-- Tool arguments: a Python dict modeled as an association list in
insertion order; lookup is first-match. -/
def Args := List (String × PyVal)

/-- Python `args[key]` / `key in args`: first-match association-list lookup. -/
def getArg (args : Args) (k : String) : Option PyVal :=
  (List.find? (fun p => p.1 == k) args).map (fun p => p.2)

/-- The query-string parts built by the loop in `build_url` (lines 42-48):
a list value emits one `key=value` pair per element in order, with no
emptiness check; a scalar emits one pair unless it is `None` or `""`. -/
def queryParts (params : List (String × PyVal)) : List String :=
  params.flatMap (fun kv =>
    match kv.2 with
    | PyVal.list xs => xs.map (fun v => kv.1 ++ "=" ++ v)
    | v => if v = PyVal.none ∨ v = PyVal.str "" then [] else [kv.1 ++ "=" ++ pyValStr v])

/-- `build_url(compilation, endpoint, params)` (lines 38-51): base path
`BASE_URL/compilation/endpoint`, then `?` and `&`-joined parts when any
part was emitted. -/
def build_url (compilation endpoint : String) (params : List (String × PyVal)) : String :=
  let base := BASE_URL ++ "/" ++ compilation ++ "/" ++ endpoint
  let parts := queryParts params
  if parts = [] then base else base ++ "?" ++ String.intercalate "&" parts

/-- What the network does for one URL: an HTTP response (status, body) or
a request-level failure (connect/timeout/DNS), abstracted as an oracle. -/
inductive NetResult where
  | resp : Nat → String → NetResult
  | netFail : String → NetResult

/-- The Python exceptions that reach `call_tool`'s except clauses:
`httpx.HTTPStatusError` (status, body), `httpx.RequestError` (message),
`KeyError` (missing dict key), and any other exception. -/
inductive PyExc where
  | httpStatusError : Nat → String → PyExc
  | requestError : String → PyExc
  | keyError : String → PyExc
  | other : String → PyExc

/-- `fetch(url)` (lines 54-59): one GET; `raise_for_status` raises
`HTTPStatusError` for any non-2xx status; request-level failures raise
`RequestError`. -/
def fetch (net : String → NetResult) (url : String) : Except PyExc String :=
  match net url with
  | NetResult.resp st body =>
      if 200 ≤ st ∧ st < 300 then Except.ok body
      else Except.error (PyExc.httpStatusError st body)
  | NetResult.netFail m => Except.error (PyExc.requestError m)

/-- One iteration of the scalar-key loop in `extract_params` (lines 347-349):
copy `(key, args[key])` when the key is present and its value is not `None`. -/
def copyScalar (args : Args) (k : String) : List (String × PyVal) :=
  match getArg args k with
  | some v => if v = PyVal.none then [] else [(k, v)]
  | Option.none => []

/-- One of the repeated-param copies in `extract_params` (lines 352-355):
copy the key when present and truthy. -/
def copyRepeated (args : Args) (k : String) : List (String × PyVal) :=
  match getArg args k with
  | some v => if pyTruthy v then [(k, v)] else []
  | Option.none => []

/-- `extract_params(args)` (lines 344-357): scalar keys in the fixed loop
order, then `rfilter`, then `sfilter`. -/
def extract_params (args : Args) : List (String × PyVal) :=
  copyScalar args "regions" ++ copyScalar args "ids" ++ copyScalar args "sids" ++
  copyScalar args "contains" ++ copyScalar args "exact" ++ copyScalar args "either" ++
  copyScalar args "header" ++ copyScalar args "fields" ++
  copyRepeated args "rfilter" ++ copyRepeated args "sfilter"

/-- Python dict assignment `params[k] = v` on an insertion-ordered dict:
replace the value in place when the key exists, else append. -/
def setParam (ps : List (String × PyVal)) (k : String) (v : PyVal) : List (String × PyVal) :=
  if ps.any (fun p => p.1 == k) then ps.map (fun p => if p.1 == k then (k, v) else p)
  else ps ++ [(k, v)]

/-- The whitespace characters removed by Python `str.strip()` (restricted
to the ASCII whitespace set; the responses in play are ASCII text). -/
def isPyWhitespace (c : Char) : Bool :=
  c = ' ' || c = '\t' || c = '\n' || c = '\r' || c = '\x0b' || c = '\x0c'

/-- Python `s.strip()`: drop the leading and trailing whitespace of the
whole string. -/
def pyStrip (s : String) : String :=
  String.mk (((s.data.dropWhile isPyWhitespace).reverse.dropWhile isPyWhitespace).reverse)

/-- Helper for Python `s.split("\n")` on the character list: a newline
closes the current segment; the empty string yields one empty segment. -/
def splitLinesAux : List Char → List (List Char)
  | [] => [[]]
  | c :: rest =>
    let r := splitLinesAux rest
    if c = '\n' then [] :: r
    else match r with
      | l :: ls => (c :: l) :: ls
      | [] => [[c]]

/-- Python `s.split("\n")`. -/
def pySplitLines (s : String) : List String := (splitLinesAux s.data).map String.mk

/-- Python `s.startswith(p)`. -/
def pyStartsWith (s p : String) : Bool := p.data.isPrefixOf s.data

/-- The record count computed in the record-returning branches of
`call_tool` (lines 378-379 and twins): strip the response, split on
newline, count lines that are truthy (non-empty) and do not start with
`"DataSource"`. -/
def countRecords (result : String) : Nat :=
  let lines := pySplitLines (pyStrip result)
  (lines.filter (fun l => l != "" && !(pyStartsWith l "DataSource"))).length

/-- The Response Summarizer as the spec states it: split the text on
newline and trim the surrounding whitespace, then count the lines that
are non-empty and do not start with the marker prefix `"DataSource"`. -/
def summarize_spec (text : String) : Nat :=
  ((pySplitLines (pyStrip text)).filter
    (fun l => l != "" && !(pyStartsWith l "DataSource"))).length

/-- The six tool names advertised by `list_tools` (lines 62-341), in
catalog order. -/
def toolNames : List String :=
  ["snaptron_query_junctions", "snaptron_query_genes", "snaptron_query_samples",
   "snaptron_list_compilations", "snaptron_get_result_count", "snaptron_build_url"]

/-- The body of one record-returning branch of `call_tool`
(junctions lines 373-383, genes 385-395, samples 397-407): read
`compilation` (KeyError if absent), build the URL for the given endpoint,
fetch, summarize, and format. Returns the result together with the list
of URLs fetched. -/
def queryBranch (net : String → NetResult) (endpoint : String) (args : Args) :
    Except PyExc (List String) × List String :=
  match getArg args "compilation" with
  | Option.none => (Except.error (PyExc.keyError "compilation"), [])
  | some c =>
      let params := extract_params args
      let url := build_url (pyValStr c) endpoint params
      match fetch net url with
      | Except.ok result =>
          (Except.ok ["Query URL: " ++ url ++ "\n\nResults (" ++
            toString (countRecords result) ++ " records):\n\n" ++ result], [url])
      | Except.error e => (Except.error e, [url])

/-- The dispatch body of `call_tool` (lines 362-431), before the except
clauses; `jparse` abstracts `json.dumps(json.loads r, indent=2)`, returning
`none` when `json.loads` raises `JSONDecodeError`. Second component: the
URLs fetched. -/
def call_tool_inner (net : String → NetResult) (jparse : String → Option String)
    (name : String) (args : Args) : Except PyExc (List String) × List String :=
  if name = "snaptron_list_compilations" then
    let url := BASE_URL ++ "/snaptron/registry"
    match fetch net url with
    | Except.ok result =>
        match jparse result with
        | some formatted =>
            (Except.ok ["Snaptron Compilation Registry:\n\n" ++ formatted], [url])
        | Option.none => (Except.ok ["Registry response:\n" ++ result], [url])
    | Except.error e => (Except.error e, [url])
  else if name = "snaptron_query_junctions" then
    queryBranch net "snaptron" args
  else if name = "snaptron_query_genes" then
    queryBranch net "genes" args
  else if name = "snaptron_query_samples" then
    queryBranch net "samples" args
  else if name = "snaptron_get_result_count" then
    match getArg args "compilation" with
    | Option.none => (Except.error (PyExc.keyError "compilation"), [])
    | some c =>
        let params := setParam (extract_params args) "fields" (PyVal.str "rc")
        let url := build_url (pyValStr c) "snaptron" params
        match fetch net url with
        | Except.ok result =>
            (Except.ok ["Query URL: " ++ url ++ "\n\nResult count response:\n" ++ result], [url])
        | Except.error e => (Except.error e, [url])
  else if name = "snaptron_build_url" then
    match getArg args "compilation" with
    | Option.none => (Except.error (PyExc.keyError "compilation"), [])
    | some c =>
        let endpoint := match getArg args "endpoint" with
          | some v => pyValStr v
          | Option.none => "snaptron"
        let params := extract_params args
        let url := build_url (pyValStr c) endpoint params
        (Except.ok ["Built Snaptron URL:\n" ++ url ++
          "\n\nYou can test this with:\n  curl -L \x22" ++ url ++ "\x22"], [])
  else
    (Except.ok ["Unknown tool: " ++ name], [])

/-- The text produced by the three except clauses (lines 433-438):
`HTTPStatusError` → status and body, `RequestError` → message,
anything else → `Error: str(e)` (for a `KeyError` the Python `str` is the
quoted key). -/
def excText : PyExc → String
  | PyExc.httpStatusError st body => "HTTP error " ++ toString st ++ ": " ++ body
  | PyExc.requestError m => "Request error: " ++ m
  | PyExc.keyError k => "Error: \x27" ++ k ++ "\x27"
  | PyExc.other m => "Error: " ++ m

/-- `call_tool(name, arguments)` (lines 360-438): the dispatch body wrapped
in the try/except boundary that converts every exception to a single
textual result. First component: the returned text contents; second: the
URLs fetched. -/
def call_tool (net : String → NetResult) (jparse : String → Option String)
    (name : String) (args : Args) : List String × List String :=
  match call_tool_inner net jparse name args with
  | (Except.ok texts, log) => (texts, log)
  | (Except.error e, log) => ([excText e], log)

/-! ## Helper lemmas -/

theorem queryParts_append (ps1 ps2 : List (String × PyVal)) :
    queryParts (ps1 ++ ps2) = queryParts ps1 ++ queryParts ps2 := by
  simp [queryParts]

theorem mem_copyScalar {args : Args} {key k : String} {v : PyVal}
    (h : (k, v) ∈ copyScalar args key) : getArg args k = some v ∧ v ≠ PyVal.none := by
  unfold copyScalar at h
  cases hg : getArg args key with
  | none => rw [hg] at h; simp at h
  | some w =>
      rw [hg] at h
      by_cases hw : w = PyVal.none
      · simp [hw] at h
      · simp [hw] at h
        obtain ⟨hk, hv⟩ := h
        subst hk; subst hv
        exact ⟨hg, hw⟩

theorem mem_copyRepeated {args : Args} {key k : String} {v : PyVal}
    (h : (k, v) ∈ copyRepeated args key) : getArg args k = some v ∧ pyTruthy v = true := by
  unfold copyRepeated at h
  cases hg : getArg args key with
  | none => rw [hg] at h; simp at h
  | some w =>
      rw [hg] at h
      by_cases hw : pyTruthy w = true
      · simp [hw] at h
        obtain ⟨hk, hv⟩ := h
        subst hk; subst hv
        exact ⟨hg, hw⟩
      · simp [hw] at h

/-! ## C2 -/

/-- C2: `build_url` emits, for a sequence-valued key with N elements,
exactly the N `key=value` pairs in element order with no skipping of empty
elements (its contribution to the query parts is literally the element
list mapped to pairs), and the concrete scenario from the spec holds. -/
theorem sequence_params_emitted_in_order :
    (∀ (ps1 ps2 : List (String × PyVal)) (k : String) (xs : List String),
       queryParts (ps1 ++ (k, PyVal.list xs) :: ps2) =
         queryParts ps1 ++ xs.map (fun v => k ++ "=" ++ v) ++ queryParts ps2) ∧
    build_url "gtexv2" "snaptron"
      [("regions", PyVal.str "BRCA1"),
       ("rfilter", PyVal.list ["samples_count>:5", "coverage_avg>:10.0"])] =
    "http://snaptron.cs.jhu.edu/gtexv2/snaptron?regions=BRCA1&rfilter=samples_count>:5&rfilter=coverage_avg>:10.0" := by
  constructor
  · intro ps1 ps2 k xs
    simp [queryParts]
  · rfl

/-! ## C4 -/

/-- C4: a scalar entry whose value is `None` or the empty string
contributes nothing to the query parts, and a key that is absent from the
arguments (or mapped to `None`) never appears in the parameters that
`extract_params` produces. -/
theorem empty_scalar_params_skipped :
    (∀ (ps1 ps2 : List (String × PyVal)) (k : String) (v : PyVal),
       v = PyVal.none ∨ v = PyVal.str "" →
       queryParts (ps1 ++ (k, v) :: ps2) = queryParts ps1 ++ queryParts ps2) ∧
    (∀ (args : Args) (k : String),
       getArg args k = Option.none ∨ getArg args k = some PyVal.none →
       ∀ v, (k, v) ∉ extract_params args) := by
  constructor
  · intro ps1 ps2 k v hv
    rcases hv with hv | hv <;> subst hv <;> simp [queryParts]
  · intro args k hk v hv
    have hsc : ∀ key, (k, v) ∈ copyScalar args key → False := by
      intro key hmem
      obtain ⟨hg, hne⟩ := mem_copyScalar hmem
      rcases hk with hk | hk
      · rw [hk] at hg; exact Option.noConfusion hg
      · rw [hk] at hg
        exact hne (Option.some.inj hg).symm
    have hrp : ∀ key, (k, v) ∈ copyRepeated args key → False := by
      intro key hmem
      obtain ⟨hg, htr⟩ := mem_copyRepeated hmem
      rcases hk with hk | hk
      · rw [hk] at hg; exact Option.noConfusion hg
      · rw [hk] at hg
        rw [← (Option.some.inj hg)] at htr
        simp [pyTruthy] at htr
    unfold extract_params at hv
    simp only [List.mem_append] at hv
    rcases hv with ((((((((h | h) | h) | h) | h) | h) | h) | h) | h) | h
    · exact hsc _ h
    · exact hsc _ h
    · exact hsc _ h
    · exact hsc _ h
    · exact hsc _ h
    · exact hsc _ h
    · exact hsc _ h
    · exact hsc _ h
    · exact hrp _ h
    · exact hrp _ h

/-- Witness for C4 at concrete inputs. -/
theorem empty_scalar_params_skipped_witness :
    queryParts [("a", PyVal.str "x"), ("regions", PyVal.str ""), ("b", PyVal.str "y")] =
      queryParts [("a", PyVal.str "x")] ++ queryParts [("b", PyVal.str "y")] ∧
    ("regions", PyVal.str "q") ∉ extract_params [("ids", PyVal.str "5")] :=
  ⟨empty_scalar_params_skipped.1 [("a", PyVal.str "x")] [("b", PyVal.str "y")]
      "regions" (PyVal.str "") (Or.inr rfl),
   empty_scalar_params_skipped.2 [("ids", PyVal.str "5")] "regions"
      (Or.inl (by decide)) (PyVal.str "q")⟩

/-! ## C3 -/

/-- C3: the record count computed by the record-returning tools equals
the spec formula (split the trimmed text on newline, count non-empty
lines that do not start with the marker prefix); it is 0 on the empty
string, 0 on a marker-only response, 3 on one marker line plus three
data lines plus a trailing blank line; and the text each of the three
record-returning tools returns reports exactly `countRecords` of the
fetched body. -/
theorem record_count_matches_spec :
    (∀ t, countRecords t = summarize_spec t) ∧
    countRecords "" = 0 ∧
    countRecords "DataSource:A\nDataSource:B" = 0 ∧
    countRecords "DataSource:X\na\tb\nc\td\ne\tf\n" = 3 ∧
    (∀ (net : String → NetResult) (jparse : String → Option String) (args : Args)
       (c : PyVal) (body : String) (nm ep : String),
       (nm, ep) ∈ [("snaptron_query_junctions", "snaptron"),
                   ("snaptron_query_genes", "genes"),
                   ("snaptron_query_samples", "samples")] →
       getArg args "compilation" = some c →
       net (build_url (pyValStr c) ep (extract_params args)) = NetResult.resp 200 body →
       call_tool net jparse nm args =
         (["Query URL: " ++ build_url (pyValStr c) ep (extract_params args) ++
             "\n\nResults (" ++ toString (countRecords body) ++ " records):\n\n" ++ body],
          [build_url (pyValStr c) ep (extract_params args)])) := by
  refine ⟨fun t => rfl, rfl, rfl, rfl, ?_⟩
  intro net jparse args c body nm ep hmem hc hnet
  have h2xx : ((200 : Nat) ≤ 200 ∧ (200 : Nat) < 300) := by omega
  simp only [List.mem_cons, List.not_mem_nil, or_false, Prod.mk.injEq] at hmem
  rcases hmem with ⟨h1, h2⟩ | ⟨h1, h2⟩ | ⟨h1, h2⟩ <;> subst h1 <;> subst h2 <;>
    simp [call_tool, call_tool_inner, queryBranch, hc, fetch, hnet, h2xx]

/-- Witness for C3 at a concrete dispatch. -/
theorem record_count_matches_spec_witness :
    call_tool (fun _ => NetResult.resp 200 "DataSource:X\nr1\nr2\n") (fun _ => Option.none)
        "snaptron_query_junctions" [("compilation", PyVal.str "gtexv2")] =
      (["Query URL: http://snaptron.cs.jhu.edu/gtexv2/snaptron" ++
          "\n\nResults (" ++ toString (countRecords "DataSource:X\nr1\nr2\n") ++
          " records):\n\n" ++ "DataSource:X\nr1\nr2\n"],
       ["http://snaptron.cs.jhu.edu/gtexv2/snaptron"]) :=
  record_count_matches_spec.2.2.2.2
    (fun _ => NetResult.resp 200 "DataSource:X\nr1\nr2\n") (fun _ => Option.none)
    [("compilation", PyVal.str "gtexv2")] (PyVal.str "gtexv2") "DataSource:X\nr1\nr2\n"
    "snaptron_query_junctions" "snaptron" (by decide) (by decide) rfl

/-! ## C7 -/

/-- C7: a tool name outside the six catalogued names yields a normal soft
error result whose text contains the name, with no fetch and no raised
fault. -/
theorem unknown_tool_soft_error :
    ∀ (net : String → NetResult) (jparse : String → Option String) (name : String)
      (args : Args), name ∉ toolNames →
      call_tool net jparse name args = (["Unknown tool: " ++ name], []) := by
  intro net jparse name args h
  simp only [toolNames, List.mem_cons, List.mem_singleton, not_or] at h
  obtain ⟨h1, h2, h3, h4, h5, h6, -⟩ := h
  simp [call_tool, call_tool_inner, h1, h2, h3, h4, h5, h6]

/-- Witness for C7 at a concrete unknown name. -/
theorem unknown_tool_soft_error_witness :
    call_tool (fun _ => NetResult.netFail "down") (fun _ => Option.none) "bogus_tool" [] =
      (["Unknown tool: bogus_tool"], []) :=
  unknown_tool_soft_error (fun _ => NetResult.netFail "down") (fun _ => Option.none)
    "bogus_tool" [] (by decide)

/-! ## C8 -/

/-- C8: dispatching `snaptron_build_url` fetches nothing (the fetch log is
empty for every argument set, including the missing-compilation error
path), and when `compilation` is present it returns the built URL together
with a ready-to-copy curl invocation. -/
theorem build_only_never_fetches :
    ∀ (net : String → NetResult) (jparse : String → Option String) (args : Args),
      (call_tool net jparse "snaptron_build_url" args).2 = [] ∧
      (∀ c, getArg args "compilation" = some c →
        call_tool net jparse "snaptron_build_url" args =
          (["Built Snaptron URL:\n" ++
              build_url (pyValStr c)
                (match getArg args "endpoint" with
                 | some v => pyValStr v
                 | Option.none => "snaptron") (extract_params args) ++
            "\n\nYou can test this with:\n  curl -L \x22" ++
              build_url (pyValStr c)
                (match getArg args "endpoint" with
                 | some v => pyValStr v
                 | Option.none => "snaptron") (extract_params args) ++ "\x22"], [])) := by
  intro net jparse args
  constructor
  · cases hc : getArg args "compilation" with
    | none => simp [call_tool, call_tool_inner, hc]
    | some c => simp [call_tool, call_tool_inner, hc]
  · intro c hc
    simp [call_tool, call_tool_inner, hc]

/-- Witness for C8 at a concrete argument set. -/
theorem build_only_never_fetches_witness :
    call_tool (fun _ => NetResult.resp 200 "x") (fun _ => Option.none) "snaptron_build_url"
        [("compilation", PyVal.str "gtexv2"), ("endpoint", PyVal.str "genes"),
         ("regions", PyVal.str "BRCA1")] =
      (["Built Snaptron URL:\nhttp://snaptron.cs.jhu.edu/gtexv2/genes?regions=BRCA1" ++
          "\n\nYou can test this with:\n  curl -L \x22" ++
          "http://snaptron.cs.jhu.edu/gtexv2/genes?regions=BRCA1\x22"], []) :=
  (build_only_never_fetches (fun _ => NetResult.resp 200 "x") (fun _ => Option.none)
      [("compilation", PyVal.str "gtexv2"), ("endpoint", PyVal.str "genes"),
       ("regions", PyVal.str "BRCA1")]).2
    (PyVal.str "gtexv2") (by decide)

/-! ## C10 -/

/-- C10: `snaptron_build_url` invoked without an `endpoint` argument (but
with `compilation`) defaults the endpoint to `snaptron` and returns a
successfully built URL rather than an error result. -/
theorem build_url_defaults_endpoint :
    ∀ (net : String → NetResult) (jparse : String → Option String) (args : Args) (c : PyVal),
      getArg args "compilation" = some c →
      getArg args "endpoint" = Option.none →
      call_tool net jparse "snaptron_build_url" args =
        (["Built Snaptron URL:\n" ++ build_url (pyValStr c) "snaptron" (extract_params args) ++
          "\n\nYou can test this with:\n  curl -L \x22" ++
          build_url (pyValStr c) "snaptron" (extract_params args) ++ "\x22"], []) := by
  intro net jparse args c hc he
  simp [call_tool, call_tool_inner, hc, he]

/-- Witness for C10 at a concrete argument set lacking `endpoint`. -/
theorem build_url_defaults_endpoint_witness :
    call_tool (fun _ => NetResult.resp 200 "x") (fun _ => Option.none) "snaptron_build_url"
        [("compilation", PyVal.str "tcga"), ("regions", PyVal.str "KCNIP4")] =
      (["Built Snaptron URL:\nhttp://snaptron.cs.jhu.edu/tcga/snaptron?regions=KCNIP4" ++
          "\n\nYou can test this with:\n  curl -L \x22" ++
          "http://snaptron.cs.jhu.edu/tcga/snaptron?regions=KCNIP4\x22"], []) :=
  build_url_defaults_endpoint (fun _ => NetResult.resp 200 "x") (fun _ => Option.none)
    [("compilation", PyVal.str "tcga"), ("regions", PyVal.str "KCNIP4")]
    (PyVal.str "tcga") (by decide) (by decide)

/-! ## C5 -/

theorem mem_setParam_self (ps : List (String × PyVal)) (k : String) (v : PyVal) :
    (k, v) ∈ setParam ps k v := by
  unfold setParam
  by_cases h : ps.any (fun p => p.1 == k) = true
  · rw [if_pos h]
    obtain ⟨p, hp, hpk⟩ := List.any_eq_true.mp h
    refine List.mem_map.mpr ⟨p, hp, ?_⟩
    simp [hpk]
  · rw [if_neg h]
    exact List.mem_append_right _ (List.mem_singleton.mpr rfl)

theorem mem_setParam_key_eq {ps : List (String × PyVal)} {k : String} {v w : PyVal}
    (h : (k, w) ∈ setParam ps k v) : w = v := by
  unfold setParam at h
  by_cases hany : ps.any (fun p => p.1 == k) = true
  · rw [if_pos hany] at h
    obtain ⟨p, _, hpe⟩ := List.mem_map.mp h
    by_cases hpk : (p.1 == k) = true
    · rw [if_pos hpk] at hpe
      exact (Prod.mk.injEq _ _ _ _ ▸ hpe).2.symm
    · rw [if_neg hpk] at hpe
      have : p.1 = k := congrArg Prod.fst hpe
      simp [this] at hpk
  · rw [if_neg hany] at h
    rcases List.mem_append.mp h with h | h
    · exact absurd (List.any_eq_true.mpr ⟨(k, w), h, by simp⟩) hany
    · exact ((Prod.mk.injEq _ _ _ _ ▸ List.mem_singleton.mp h)).2

/-- C5: dispatching `snaptron_get_result_count` forces the `fields`
parameter to the count sentinel `rc` — every `fields` entry of the
parameter list handed to `build_url` has value `"rc"` (overriding any
caller-supplied value), the pair `fields=rc` is emitted into the query
string, and the fetched body is returned verbatim with no local
summarization. -/
theorem count_tool_forces_rc_fields :
    (∀ args : Args,
       ("fields", PyVal.str "rc") ∈ setParam (extract_params args) "fields" (PyVal.str "rc") ∧
       (∀ v, ("fields", v) ∈ setParam (extract_params args) "fields" (PyVal.str "rc") →
          v = PyVal.str "rc") ∧
       "fields=rc" ∈ queryParts (setParam (extract_params args) "fields" (PyVal.str "rc"))) ∧
    (∀ (net : String → NetResult) (jparse : String → Option String) (args : Args)
       (c : PyVal) (body : String),
       getArg args "compilation" = some c →
       net (build_url (pyValStr c) "snaptron"
             (setParam (extract_params args) "fields" (PyVal.str "rc"))) =
         NetResult.resp 200 body →
       call_tool net jparse "snaptron_get_result_count" args =
         (["Query URL: " ++ build_url (pyValStr c) "snaptron"
             (setParam (extract_params args) "fields" (PyVal.str "rc")) ++
           "\n\nResult count response:\n" ++ body],
          [build_url (pyValStr c) "snaptron"
             (setParam (extract_params args) "fields" (PyVal.str "rc"))])) := by
  constructor
  · intro args
    refine ⟨mem_setParam_self _ _ _, fun v hv => mem_setParam_key_eq hv, ?_⟩
    refine List.mem_flatMap.mpr ⟨("fields", PyVal.str "rc"), mem_setParam_self _ _ _, ?_⟩
    decide
  · intro net jparse args c body hc hnet
    have h2xx : ((200 : Nat) ≤ 200 ∧ (200 : Nat) < 300) := by omega
    simp [call_tool, call_tool_inner, hc, fetch, hnet, h2xx]

/-- Witness for C5: the caller-supplied `fields=chromosome,start` is
overridden by `rc`. -/
theorem count_tool_forces_rc_fields_witness :
    call_tool (fun _ => NetResult.resp 200 "57") (fun _ => Option.none)
        "snaptron_get_result_count"
        [("compilation", PyVal.str "gtexv2"), ("regions", PyVal.str "BRCA1"),
         ("fields", PyVal.str "chromosome,start")] =
      (["Query URL: http://snaptron.cs.jhu.edu/gtexv2/snaptron?regions=BRCA1&fields=rc" ++
          "\n\nResult count response:\n57"],
       ["http://snaptron.cs.jhu.edu/gtexv2/snaptron?regions=BRCA1&fields=rc"]) :=
  count_tool_forces_rc_fields.2 (fun _ => NetResult.resp 200 "57") (fun _ => Option.none)
    [("compilation", PyVal.str "gtexv2"), ("regions", PyVal.str "BRCA1"),
     ("fields", PyVal.str "chromosome,start")]
    (PyVal.str "gtexv2") "57" (by decide) rfl

/-! ## C6 -/

/-- C6: when the fetch yields a non-2xx status, the dispatcher returns a
soft error text carrying the status code and the response body, performs
exactly one fetch, and raises nothing (the result is a normal textual
result). Stated for every fetching branch: the registry tool, the three
record-returning tools and the count tool (the latter with `compilation`
present, so that dispatch reaches the fetch). -/
theorem transport_failure_soft_error :
    ∀ (net : String → NetResult) (jparse : String → Option String) (name : String)
      (args : Args) (st : Nat) (body : String),
      ¬ (200 ≤ st ∧ st < 300) →
      (∀ u, net u = NetResult.resp st body) →
      (name = "snaptron_list_compilations" ∨
        (name ∈ ["snaptron_query_junctions", "snaptron_query_genes", "snaptron_query_samples",
                 "snaptron_get_result_count"] ∧ ∃ c, getArg args "compilation" = some c)) →
      (call_tool net jparse name args).1 = ["HTTP error " ++ toString st ++ ": " ++ body] ∧
      (call_tool net jparse name args).2.length = 1 := by
  intro net jparse name args st body hst hnet hname
  rcases hname with hname | ⟨hname, c, hc⟩
  · subst hname
    simp [call_tool, call_tool_inner, fetch, hnet, hst, excText]
  · simp only [List.mem_cons, List.not_mem_nil, or_false] at hname
    rcases hname with h | h | h | h <;> subst h <;>
      simp [call_tool, call_tool_inner, queryBranch, hc, fetch, hnet, hst, excText]

/-- Witness for C6: an HTTP 500 with body `server error` surfaces as a
soft error containing both, after exactly one fetch. -/
theorem transport_failure_soft_error_witness :
    (call_tool (fun _ => NetResult.resp 500 "server error") (fun _ => Option.none)
        "snaptron_query_junctions" [("compilation", PyVal.str "gtexv2")]).1 =
      ["HTTP error 500: server error"] ∧
    (call_tool (fun _ => NetResult.resp 500 "server error") (fun _ => Option.none)
        "snaptron_query_junctions" [("compilation", PyVal.str "gtexv2")]).2.length = 1 :=
  transport_failure_soft_error (fun _ => NetResult.resp 500 "server error")
    (fun _ => Option.none) "snaptron_query_junctions" [("compilation", PyVal.str "gtexv2")]
    500 "server error" (by omega) (fun _ => rfl)
    (Or.inr ⟨by decide, PyVal.str "gtexv2", by decide⟩)

/-! ## C9 -/

/-- The fixed key order in which `extract_params` emits parameters:
the scalar loop order followed by `rfilter` and `sfilter`. -/
def paramOrder : List String :=
  ["regions", "ids", "sids", "contains", "exact", "either", "header", "fields",
   "rfilter", "sfilter"]

theorem copyScalar_fst_sublist (args : Args) (k : String) :
    ((copyScalar args k).map Prod.fst).Sublist [k] := by
  rcases hg : getArg args k with _ | v
  · simp [copyScalar, hg]
  · by_cases hv : v = PyVal.none
    · simp [copyScalar, hg, hv]
    · have hcs : copyScalar args k = [(k, v)] := by simp [copyScalar, hg, hv]
      rw [hcs]
      exact List.Sublist.refl _

theorem copyRepeated_fst_sublist (args : Args) (k : String) :
    ((copyRepeated args k).map Prod.fst).Sublist [k] := by
  rcases hg : getArg args k with _ | v
  · simp [copyRepeated, hg]
  · by_cases hv : pyTruthy v = true
    · have hcr : copyRepeated args k = [(k, v)] := by simp [copyRepeated, hg, hv]
      rw [hcr]
      exact List.Sublist.refl _
    · simp [copyRepeated, hg, hv]

theorem extract_params_congr {a1 a2 : Args} (h : ∀ k, getArg a1 k = getArg a2 k) :
    extract_params a1 = extract_params a2 := by
  unfold extract_params copyScalar copyRepeated
  rw [h "regions", h "ids", h "sids", h "contains", h "exact", h "either", h "header",
     h "fields", h "rfilter", h "sfilter"]

/-- C9: `extract_params` emits query keys in the fixed order `regions,
ids, sids, contains, exact, either, header, fields, rfilter, sfilter`
(its key list is a sublist of that order), and dispatch is invariant
under the caller's argument insertion order: two argument mappings with
the same key-value lookups produce the same `call_tool` result, hence
byte-identical URLs. -/
theorem params_fixed_order_and_insertion_invariance :
    (∀ args : Args, ((extract_params args).map Prod.fst).Sublist paramOrder) ∧
    (∀ (net : String → NetResult) (jparse : String → Option String) (name : String)
       (a1 a2 : Args), (∀ k, getArg a1 k = getArg a2 k) →
       call_tool net jparse name a1 = call_tool net jparse name a2) := by
  constructor
  · intro args
    unfold extract_params
    simp only [List.map_append]
    show List.Sublist _ (["regions"] ++ ["ids"] ++ ["sids"] ++ ["contains"] ++ ["exact"] ++
      ["either"] ++ ["header"] ++ ["fields"] ++ ["rfilter"] ++ ["sfilter"])
    exact ((((((((((copyScalar_fst_sublist args "regions").append
      (copyScalar_fst_sublist args "ids")).append
      (copyScalar_fst_sublist args "sids")).append
      (copyScalar_fst_sublist args "contains")).append
      (copyScalar_fst_sublist args "exact")).append
      (copyScalar_fst_sublist args "either")).append
      (copyScalar_fst_sublist args "header")).append
      (copyScalar_fst_sublist args "fields")).append
      (copyRepeated_fst_sublist args "rfilter")).append
      (copyRepeated_fst_sublist args "sfilter"))
  · intro net jparse name a1 a2 h
    have he : extract_params a1 = extract_params a2 := extract_params_congr h
    simp only [call_tool, call_tool_inner, queryBranch, h, he]

theorem getArg_pair_swap {k1 k2 : String} (hne : k1 ≠ k2) (v1 v2 : PyVal) (k : String) :
    getArg [(k1, v1), (k2, v2)] k = getArg [(k2, v2), (k1, v1)] k := by
  unfold getArg
  by_cases h1 : (k1 == k) = true
  · by_cases h2 : (k2 == k) = true
    · exact absurd ((eq_of_beq h1).trans (eq_of_beq h2).symm) hne
    · simp [List.find?, h1, h2]
  · simp [List.find?, h1]

/-- Witness for C9: swapping the insertion order of `compilation` and
`endpoint` leaves the build-only dispatch result unchanged. -/
theorem params_fixed_order_and_insertion_invariance_witness :
    call_tool (fun _ => NetResult.resp 200 "") (fun _ => Option.none) "snaptron_build_url"
        [("compilation", PyVal.str "gtexv2"), ("endpoint", PyVal.str "genes")] =
      call_tool (fun _ => NetResult.resp 200 "") (fun _ => Option.none) "snaptron_build_url"
        [("endpoint", PyVal.str "genes"), ("compilation", PyVal.str "gtexv2")] :=
  params_fixed_order_and_insertion_invariance.2 (fun _ => NetResult.resp 200 "")
    (fun _ => Option.none) "snaptron_build_url"
    [("compilation", PyVal.str "gtexv2"), ("endpoint", PyVal.str "genes")]
    [("endpoint", PyVal.str "genes"), ("compilation", PyVal.str "gtexv2")]
    (getArg_pair_swap (by decide) (PyVal.str "gtexv2") (PyVal.str "genes"))

/-! ## C1 -/

theorem call_tool_inner_ok_singleton (net : String → NetResult)
    (jparse : String → Option String) (name : String) (args : Args)
    (texts log : List String)
    (h : call_tool_inner net jparse name args = (Except.ok texts, log)) :
    texts.length = 1 := by
  unfold call_tool_inner queryBranch at h
  simp only [] at h
  repeat' split at h
  all_goals
    rw [Prod.mk.injEq] at h
    obtain ⟨h1, h2⟩ := h
    first
      | (injection h1 with h3; subst h3; rfl)
      | exact Except.noConfusion h1

/-- C1: `call_tool` answers every invocation with exactly one textual
result — every dispatch branch, every fetch outcome and every exception
path (including a missing required `compilation` argument, whose
`KeyError` the gateway boundary converts to an error text) yields a
one-element text list, and the function never raises. -/
theorem call_tool_always_one_text :
    (∀ (net : String → NetResult) (jparse : String → Option String) (name : String)
       (args : Args), (call_tool net jparse name args).1.length = 1) ∧
    (∀ (net : String → NetResult) (jparse : String → Option String) (name : String)
       (args : Args),
       name ∈ ["snaptron_query_junctions", "snaptron_query_genes", "snaptron_query_samples",
               "snaptron_get_result_count", "snaptron_build_url"] →
       getArg args "compilation" = Option.none →
       call_tool net jparse name args = (["Error: \x27compilation\x27"], [])) := by
  constructor
  · intro net jparse name args
    unfold call_tool
    rcases hinner : call_tool_inner net jparse name args with ⟨res, log⟩
    cases res with
    | ok texts => exact call_tool_inner_ok_singleton net jparse name args texts log hinner
    | error e => rfl
  · intro net jparse name args hname hc
    simp only [List.mem_cons, List.not_mem_nil, or_false] at hname
    rcases hname with h | h | h | h | h <;> subst h <;>
      simp [call_tool, call_tool_inner, queryBranch, hc, excText]

/-- Witness for C1: invoking the junctions tool without the required
`compilation` argument yields one textual error result. -/
theorem call_tool_always_one_text_witness :
    call_tool (fun _ => NetResult.resp 200 "ok") (fun _ => Option.none)
        "snaptron_query_junctions" [] = (["Error: \x27compilation\x27"], []) :=
  call_tool_always_one_text.2 (fun _ => NetResult.resp 200 "ok") (fun _ => Option.none)
    "snaptron_query_junctions" [] (by decide) (by decide)
